import Mathlib

/-!
Verification of the "Dee Why Hidden Gems" CRUD service (`src/server.js`).

The service exposes create / get-by-id / update-by-id / delete-by-id routes
over one MongoDB collection.  We embed documents as association lists of
field name to value, the collection as a list of documents, and each route
handler as a pure function from the request data and the current collection
to an HTTP response (status plus JSON body) and the resulting collection.
Store/driver failures (the generic 500 catch-all paths) are outside this
functional model: every modelled store operation succeeds.
-/

set_option autoImplicit false

namespace GemService

/-- JSON-ish values appearing in gem documents: strings, numbers, booleans,
null, server-generated timestamps (`new Date()`), and store identifiers
(`ObjectId`). -/
inductive Val where
  | vStr (s : String)
  | vNum (n : Int)
  | vBool (b : Bool)
  | vNull
  | vDate (t : Nat)
  | vOid (o : String)
deriving DecidableEq

/-- A document: an ordered association list of field name to value. -/
abbrev Doc := List (String × Val)

/-- First-occurrence field lookup, `doc[k]` in JS (`none` = `undefined`). -/
def getField : Doc → String → Option Val
  | [], _ => none
  | (k', v) :: rest, k => if k' = k then some v else getField rest k

/-- `$set` of a single field: replace the first occurrence in place, or
append the field if absent (MongoDB keeps the position of existing fields). -/
def setField : Doc → String → Val → Doc
  | [], k, v => [(k, v)]
  | (k', v') :: rest, k, v =>
      if k' = k then (k, v) :: rest else (k', v') :: setField rest k v

/-- `$set` of a whole update document: set each supplied field in turn. -/
def setMany (d : Doc) (u : Doc) : Doc :=
  u.foldl (fun acc kv => setField acc kv.1 kv.2) d

/-- `delete doc[k]` in JS: remove every occurrence of the field. -/
def eraseField : Doc → String → Doc
  | [], _ => []
  | (k', v) :: rest, k =>
      if k' = k then eraseField rest k else (k', v) :: eraseField rest k

/-- JavaScript truthiness of a value (`!v` is `true` exactly on falsy `v`):
the falsy values in our model are `""`, `0`, `false` and `null`. -/
def truthy : Val → Bool
  | .vStr s => decide (s ≠ "")
  | .vNum n => decide (n ≠ 0)
  | .vBool b => b
  | .vNull => false
  | .vDate _ => true
  | .vOid _ => true

/-- Truthiness of `doc.k` in JS: an absent field is `undefined`, hence falsy. -/
def truthyField (d : Doc) (k : String) : Bool :=
  match getField d k with
  | some v => truthy v
  | none => false

def isHexChar (c : Char) : Bool :=
  c.isDigit || (decide ('a' ≤ c) && decide (c ≤ 'f'))
    || (decide ('A' ≤ c) && decide (c ≤ 'F'))

/-- `ObjectId.isValid`: a 24-character hex string (or a 12-character byte
string) is a well-formed store identifier. -/
def isValidObjectId (s : String) : Bool :=
  s.data.length == 12 || (s.data.length == 24 && s.data.all isHexChar)

/-- The `hidden_gems` collection: the list of stored documents. -/
abbrev Store := List Doc

/-- The JSON body of a response: a `{message}` object, a single gem,
a gem list, or the create route's `{message, insertedId, newGem}` object. -/
inductive RespBody where
  | msg (m : String)
  | gem (g : Doc)
  | gems (gs : List Doc)
  | created (m : String) (insertedId : Val) (newGem : Doc)
deriving DecidableEq

/-- An HTTP response: status code and JSON body. -/
structure Response where
  status : Nat
  body : RespBody
deriving DecidableEq

/-- The filter `{ _id: new ObjectId(gemId) }` applied to one document. -/
def idMatches (oid : String) (d : Doc) : Bool :=
  decide (getField d "_id" = some (Val.vOid oid))

/-- `findOne({ _id: new ObjectId(oid) })`: first matching document. -/
def findGem (store : Store) (oid : String) : Option Doc :=
  store.find? (idMatches oid)

/-- `updateOne`: replace the first document matching the identifier. -/
def replaceFirst : Store → String → Doc → Store
  | [], _, _ => []
  | d :: rest, oid, nd =>
      if idMatches oid d then nd :: rest else d :: replaceFirst rest oid nd

/-- `deleteOne`: remove the first document matching the identifier. -/
def removeFirst : Store → String → Store
  | [], _ => []
  | d :: rest, oid =>
      if idMatches oid d then rest else d :: removeFirst rest oid

/-- `GET /api/gems` (server.js lines 45-53). -/
def listGems (store : Store) : Response :=
  ⟨200, .gems store⟩

/-- `GET /api/gems/:id` (server.js lines 57-74): reject malformed ids with
400, missing gems with 404, otherwise return the document. -/
def getGem (store : Store) (gemId : String) : Response :=
  if !(isValidObjectId gemId) then ⟨400, .msg "Invalid Gem ID format"⟩
  else
    match findGem store gemId with
    | none => ⟨404, .msg "Hidden gem not found"⟩
    | some g => ⟨200, .gem g⟩

/-- `POST /api/gems` (server.js lines 78-96): reject bodies whose `title`,
`description` or `category` is falsy; otherwise overwrite `submissionDate`
with the current time, insert the document (the driver adds a freshly
generated `_id` when the body supplies none) and return 201 with the
inserted id and the complete stored object.  `now` is the clock reading and
`newId` the identifier the store would generate for this insert. -/
def createGem (store : Store) (body : Doc) (now : Nat) (newId : String) :
    Response × Store :=
  if !(truthyField body "title") || !(truthyField body "description")
      || !(truthyField body "category") then
    (⟨400, .msg "Missing required gem fields (title, description, category)"⟩,
      store)
  else
    let stamped := setField body "submissionDate" (Val.vDate now)
    let doc :=
      match getField stamped "_id" with
      | some _ => stamped
      | none => stamped ++ [("_id", Val.vOid newId)]
    let idv := (getField doc "_id").getD (Val.vOid newId)
    (⟨201, .created "Hidden gem added successfully" idv doc⟩, store ++ [doc])

/-- `PUT /api/gems/:id` (server.js lines 100-131): reject malformed ids with
400; strip `_id` from the body; `updateOne` with `$set` of the remaining
fields; 404 when nothing matched, 200 "no changes" when the matched document
is unmodified, 200 "updated" otherwise. -/
def updateGem (store : Store) (gemId : String) (body : Doc) :
    Response × Store :=
  if !(isValidObjectId gemId) then (⟨400, .msg "Invalid Gem ID format"⟩, store)
  else
    let upd := eraseField body "_id"
    match findGem store gemId with
    | none => (⟨404, .msg "Hidden gem not found"⟩, store)
    | some d =>
      let d' := setMany d upd
      let store' := replaceFirst store gemId d'
      if d' = d then
        (⟨200, .msg "No changes made to the hidden gem (data was identical)"⟩,
          store')
      else
        (⟨200, .msg "Hidden gem updated successfully"⟩, store')

/-- `DELETE /api/gems/:id` (server.js lines 136-155): reject malformed ids
with 400; `deleteOne`; 404 when nothing was deleted, 200 otherwise. -/
def deleteGem (store : Store) (gemId : String) : Response × Store :=
  if !(isValidObjectId gemId) then (⟨400, .msg "Invalid Gem ID format"⟩, store)
  else
    match findGem store gemId with
    | none => (⟨404, .msg "Hidden gem not found or already deleted"⟩, store)
    | some _ => (⟨200, .msg "Hidden gem deleted successfully"⟩,
        removeFirst store gemId)

/-- One mutating request against the collection, for statements about
sequences of operations. -/
inductive Op where
  | createOp (body : Doc) (now : Nat) (newId : String)
  | updateOp (gemId : String) (body : Doc)

/-- The collection after one operation. -/
def applyOp (store : Store) : Op → Store
  | .createOp b n i => (createGem store b n i).2
  | .updateOp g b => (updateGem store g b).2

/-- The collection after a sequence of operations. -/
def applyOps (store : Store) (ops : List Op) : Store :=
  ops.foldl applyOp store

/-- The identifiers of the stored documents, in collection order. -/
def gemIds (store : Store) : List (Option Val) :=
  store.map (fun d => getField d "_id")

/-- A well-formed 24-character hex identifier used in concrete instances. -/
def oid0 : String := "0123456789abcdef01234567"

/-- A second well-formed identifier, distinct from `oid0`. -/
def oid1 : String := "89abcdef0123456789abcdef"

/-- A concrete stored gem document carrying `oid0`. -/
def gem0 : Doc :=
  [("_id", Val.vOid oid0), ("title", Val.vStr "Hidden Beach"),
   ("description", Val.vStr "Secluded cove"), ("category", Val.vStr "Nature"),
   ("submissionDate", Val.vDate 5)]

/-- A one-document collection holding `gem0`. -/
def store0 : Store := [gem0]

/-- A concrete valid creation payload (the spec's concrete scenario). -/
def payload0 : Doc :=
  [("title", Val.vStr "Hidden Beach"), ("description", Val.vStr "Secluded cove"),
   ("category", Val.vStr "Nature")]

-- sanity checks on concrete inputs (kept as examples, they assert nothing new)
example : isValidObjectId "0123456789abcdef01234567" = true := by decide
example : isValidObjectId "zz" = false := by decide
example : truthyField [("title", Val.vStr "")] "title" = false := by decide

/-! ## Lemmas about field access and merge -/

theorem getField_setField_self (d : Doc) (k : String) (v : Val) :
    getField (setField d k v) k = some v := by
  induction d with
  | nil => simp [setField, getField]
  | cons kv rest ih =>
    by_cases h : kv.1 = k
    · simp [setField, h, getField]
    · simp [setField, h, getField, ih]

theorem getField_setField_ne (d : Doc) (k k' : String) (v : Val)
    (h : k' ≠ k) : getField (setField d k v) k' = getField d k' := by
  have hkk : ¬ k = k' := fun hh => h hh.symm
  induction d with
  | nil => simp [setField, getField, hkk]
  | cons kv rest ih =>
    by_cases hk : kv.1 = k
    · have h1 : ¬ kv.1 = k' := fun hh => hkk (hk.symm.trans hh)
      simp [setField, hk, getField, hkk, h1]
    · simp [setField, hk, getField, ih]

theorem getField_append (d e : Doc) (k : String) :
    getField (d ++ e) k =
      match getField d k with
      | some v => some v
      | none => getField e k := by
  induction d with
  | nil => simp [getField]
  | cons kv rest ih =>
    by_cases h : kv.1 = k
    · simp [getField, h]
    · simp [getField, h, ih]

theorem setField_eq_of_getField (d : Doc) (k : String) (v : Val)
    (h : getField d k = some v) : setField d k v = d := by
  induction d with
  | nil => simp [getField] at h
  | cons kv rest ih =>
    by_cases hk : kv.1 = k
    · have hv : kv.2 = v := by simpa [getField, hk] using h
      have hstep : setField (kv :: rest) k v = (k, v) :: rest := by
        simp [setField, hk]
      rw [hstep, ← hv, ← hk]
    · have h' : getField rest k = some v := by simpa [getField, hk] using h
      simp [setField, hk, ih h']

theorem setMany_eq_self (d u : Doc)
    (h : ∀ k v, (k, v) ∈ u → getField d k = some v) : setMany d u = d := by
  induction u with
  | nil => rfl
  | cons kv rest ih =>
    have h1 : getField d kv.1 = some kv.2 := h kv.1 kv.2 (by simp)
    have : setMany d (kv :: rest) = setMany (setField d kv.1 kv.2) rest := rfl
    rw [this, setField_eq_of_getField d kv.1 kv.2 h1]
    exact ih (fun k v hm => h k v (List.mem_cons_of_mem _ hm))

theorem getField_setMany_not_mem (d u : Doc) (k : String)
    (h : k ∉ u.map Prod.fst) : getField (setMany d u) k = getField d k := by
  induction u generalizing d with
  | nil => rfl
  | cons kv rest ih =>
    have h1 : kv.1 ≠ k := fun hh => h (by simp [hh])
    have h2 : k ∉ rest.map Prod.fst := fun hh => h (by simp [hh])
    have : setMany d (kv :: rest) = setMany (setField d kv.1 kv.2) rest := rfl
    rw [this, ih _ h2, getField_setField_ne _ _ _ _ (fun hh => h1 hh.symm)]

theorem getField_eraseField_self (d : Doc) (k : String) :
    getField (eraseField d k) k = none := by
  induction d with
  | nil => simp [eraseField, getField]
  | cons kv rest ih =>
    by_cases h : kv.1 = k
    · simp [eraseField, h, ih]
    · simp [eraseField, h, getField, ih]

theorem getField_eraseField_ne (d : Doc) (k k' : String) (h : k' ≠ k) :
    getField (eraseField d k) k' = getField d k' := by
  have hkk : ¬ k = k' := fun hh => h hh.symm
  induction d with
  | nil => simp [eraseField]
  | cons kv rest ih =>
    by_cases hk : kv.1 = k
    · simp [eraseField, hk, getField, hkk, ih]
    · simp [eraseField, hk, getField, ih]

theorem not_mem_map_eraseField (d : Doc) (k : String) :
    k ∉ (eraseField d k).map Prod.fst := by
  induction d with
  | nil => simp [eraseField]
  | cons kv rest ih =>
    by_cases h : kv.1 = k
    · simpa [eraseField, h] using ih
    · have h1 : ¬ k = kv.1 := fun hh => h hh.symm
      simp [eraseField, h, ih, h1]

theorem mem_eraseField (d : Doc) (k : String) (kv : String × Val)
    (h : kv ∈ eraseField d k) : kv ∈ d := by
  induction d with
  | nil => simp [eraseField] at h
  | cons a rest ih =>
    by_cases ha : a.1 = k
    · simp only [eraseField, if_pos ha] at h
      exact List.mem_cons_of_mem _ (ih h)
    · simp only [eraseField, if_neg ha, List.mem_cons] at h
      rcases h with h | h
      · exact h ▸ List.mem_cons_self _ _
      · exact List.mem_cons_of_mem _ (ih h)

theorem getField_eq_of_mem_nodup (d : Doc) (k : String) (v : Val)
    (hnd : (d.map Prod.fst).Nodup) (h : (k, v) ∈ d) : getField d k = some v := by
  induction d with
  | nil => simp at h
  | cons kv rest ih =>
    simp only [List.map_cons, List.nodup_cons] at hnd
    rcases List.mem_cons.mp h with h | h
    · simp [getField, ← h]
    · have hk : kv.1 ≠ k := by
        intro hh
        exact hnd.1 (hh ▸ List.mem_map.mpr ⟨(k, v), h, rfl⟩)
      simp [getField, hk, ih hnd.2 h]

/-! ## Lemmas about the store operations -/

theorem gemIds_cons (d : Doc) (s : Store) :
    gemIds (d :: s) = getField d "_id" :: gemIds s := rfl

theorem replaceFirst_self (store : Store) (oid : String) (d : Doc)
    (h : findGem store oid = some d) : replaceFirst store oid d = store := by
  induction store with
  | nil => simp [findGem, List.find?] at h
  | cons a rest ih =>
    by_cases ha : idMatches oid a
    · have had : a = d := by
        simpa [findGem, List.find?_cons_of_pos _ ha] using h
      subst had
      simp [replaceFirst, ha]
    · have h' : findGem rest oid = some d := by
        simpa [findGem, List.find?_cons_of_neg _ (by simpa using ha)] using h
      simp [replaceFirst, ha, ih h']

theorem gemIds_replaceFirst (store : Store) (oid : String) (d nd : Doc)
    (h : findGem store oid = some d)
    (hid : getField nd "_id" = getField d "_id") :
    gemIds (replaceFirst store oid nd) = gemIds store := by
  induction store with
  | nil => simp [findGem, List.find?] at h
  | cons a rest ih =>
    by_cases ha : idMatches oid a
    · have had : a = d := by
        simpa [findGem, List.find?_cons_of_pos _ ha] using h
      subst had
      simp [replaceFirst, ha, gemIds_cons, hid]
    · have h' : findGem rest oid = some d := by
        simpa [findGem, List.find?_cons_of_neg _ (by simpa using ha)] using h
      have hstep : replaceFirst (a :: rest) oid nd = a :: replaceFirst rest oid nd := by
        simp [replaceFirst, ha]
      rw [hstep, gemIds_cons, gemIds_cons, ih h']

theorem findGem_append_of_none (store e : Store) (oid : String)
    (h : findGem store oid = none) :
    findGem (store ++ e) oid = findGem e oid := by
  induction store with
  | nil => rfl
  | cons a rest ih =>
    by_cases ha : idMatches oid a
    · simp [findGem, List.find?_cons_of_pos _ ha] at h
    · have h' : findGem rest oid = none := by
        simpa [findGem, List.find?_cons_of_neg _ (by simpa using ha)] using h
      simpa [findGem, List.find?_cons_of_neg _ (by simpa using ha)] using ih h'

theorem not_mem_of_getField_none (d : Doc) (k : String)
    (h : getField d k = none) : k ∉ d.map Prod.fst := by
  induction d with
  | nil => simp
  | cons kv rest ih =>
    by_cases hk : kv.1 = k
    · simp [getField, hk] at h
    · have h' : getField rest k = none := by simpa [getField, hk] using h
      have h1 : ¬ k = kv.1 := fun hh => hk hh.symm
      simp [h1, ih h']

/-! ## Claim theorems -/

/-- Claim C1: every creation payload whose `title`, `description` and
`category` are present non-empty strings makes the create operation return
201 with the generated identifier and the complete stored object, and the
stored object carries the server-generated `submissionDate` (the current
time `now`) regardless of any `submissionDate` the caller supplied. -/
theorem create_valid_created (store : Store) (body : Doc) (now : Nat)
    (newId : String)
    (ht : ∃ s, getField body "title" = some (Val.vStr s) ∧ s ≠ "")
    (hd : ∃ s, getField body "description" = some (Val.vStr s) ∧ s ≠ "")
    (hc : ∃ s, getField body "category" = some (Val.vStr s) ∧ s ≠ "") :
    ∃ idv doc,
      createGem store body now newId
        = (⟨201, RespBody.created "Hidden gem added successfully" idv doc⟩,
            store ++ [doc])
      ∧ getField doc "_id" = some idv
      ∧ getField doc "submissionDate" = some (Val.vDate now) := by
  obtain ⟨t, ht1, ht2⟩ := ht
  obtain ⟨s, hd1, hd2⟩ := hd
  obtain ⟨c, hc1, hc2⟩ := hc
  have htt : truthyField body "title" = true := by
    simp [truthyField, ht1, truthy, ht2]
  have hdd : truthyField body "description" = true := by
    simp [truthyField, hd1, truthy, hd2]
  have hcc : truthyField body "category" = true := by
    simp [truthyField, hc1, truthy, hc2]
  have hsub : getField (setField body "submissionDate" (Val.vDate now))
      "submissionDate" = some (Val.vDate now) := getField_setField_self body _ _
  cases hid : getField (setField body "submissionDate" (Val.vDate now)) "_id" with
  | none =>
    have hdocid : getField
        (setField body "submissionDate" (Val.vDate now) ++ [("_id", Val.vOid newId)])
        "_id" = some (Val.vOid newId) := by
      rw [getField_append, hid]
      simp [getField]
    refine ⟨Val.vOid newId,
      setField body "submissionDate" (Val.vDate now) ++ [("_id", Val.vOid newId)],
      ?_, hdocid, ?_⟩
    · simp [createGem, htt, hdd, hcc, hid, hdocid]
    · rw [getField_append, hsub]
  | some w =>
    refine ⟨w, setField body "submissionDate" (Val.vDate now), ?_, hid, hsub⟩
    simp [createGem, htt, hdd, hcc, hid]

/-- Witness for C1 at the spec's concrete payload. -/
theorem create_valid_created_witness :
    ∃ idv doc,
      createGem store0 payload0 100 oid1
        = (⟨201, RespBody.created "Hidden gem added successfully" idv doc⟩,
            store0 ++ [doc])
      ∧ getField doc "_id" = some idv
      ∧ getField doc "submissionDate" = some (Val.vDate 100) :=
  create_valid_created store0 payload0 100 oid1
    ⟨"Hidden Beach", by decide, by decide⟩
    ⟨"Secluded cove", by decide, by decide⟩
    ⟨"Nature", by decide, by decide⟩

/-- Claim C4: a creation payload in which `title`, `description` or
`category` is absent or the empty string is rejected with status 400 and the
fixed message naming the required fields, and the collection is unchanged. -/
theorem create_missing_field_400 (store : Store) (body : Doc) (now : Nat)
    (newId : String)
    (h : getField body "title" = none ∨ getField body "title" = some (Val.vStr "")
       ∨ getField body "description" = none
       ∨ getField body "description" = some (Val.vStr "")
       ∨ getField body "category" = none
       ∨ getField body "category" = some (Val.vStr "")) :
    createGem store body now newId
      = (⟨400, RespBody.msg
            "Missing required gem fields (title, description, category)"⟩,
          store) := by
  rcases h with h | h | h | h | h | h <;>
    simp [createGem, truthyField, h, truthy]

/-- Witness for C4: a payload missing its `title`. -/
theorem create_missing_field_400_witness :
    createGem store0
        [("description", Val.vStr "Secluded cove"), ("category", Val.vStr "Nature")]
        100 oid1
      = (⟨400, RespBody.msg
            "Missing required gem fields (title, description, category)"⟩,
          store0) :=
  create_missing_field_400 store0
    [("description", Val.vStr "Secluded cove"), ("category", Val.vStr "Nature")]
    100 oid1 (Or.inl (by decide))

/-- Claim C10: the create route's required-field check is a truthiness test,
not a presence test: the response is 201 exactly when `title`, `description`
and `category` are all truthy, 400 exactly otherwise, and a field that is
absent, the empty string, `0`, `false` or `null` is falsy. -/
theorem create_truthiness (store : Store) (body : Doc) (now : Nat)
    (newId : String) :
    ((createGem store body now newId).1.status = 201
      ↔ (truthyField body "title" = true ∧ truthyField body "description" = true
          ∧ truthyField body "category" = true))
    ∧ ((createGem store body now newId).1.status = 400
      ↔ ¬(truthyField body "title" = true ∧ truthyField body "description" = true
          ∧ truthyField body "category" = true))
    ∧ (∀ k, getField body k = none → truthyField body k = false)
    ∧ (∀ k, getField body k = some (Val.vStr "") ∨ getField body k = some (Val.vNum 0)
          ∨ getField body k = some (Val.vBool false) ∨ getField body k = some Val.vNull
        → truthyField body k = false) := by
  have key : (createGem store body now newId).1.status
      = if truthyField body "title" && truthyField body "description"
            && truthyField body "category" then 201 else 400 := by
    cases hid : getField (setField body "submissionDate" (Val.vDate now)) "_id" <;>
      cases ht : truthyField body "title" <;>
        cases hd : truthyField body "description" <;>
          cases hc : truthyField body "category" <;>
            simp [createGem, ht, hd, hc, hid]
  refine ⟨?_, ?_, ?_, ?_⟩
  · rw [key]
    cases ht : truthyField body "title" <;>
      cases hd : truthyField body "description" <;>
        cases hc : truthyField body "category" <;> simp
  · rw [key]
    cases ht : truthyField body "title" <;>
      cases hd : truthyField body "description" <;>
        cases hc : truthyField body "category" <;> simp
  · intro k hk
    simp [truthyField, hk]
  · intro k hk
    rcases hk with hk | hk | hk | hk <;> simp [truthyField, hk, truthy]

/-- Witness for C10 at a payload whose `category` is present but `0`. -/
theorem create_truthiness_witness :
    ((createGem store0
        [("title", Val.vStr "a"), ("description", Val.vStr "b"),
         ("category", Val.vNum 0)] 7 oid1).1.status = 201
      ↔ (truthyField [("title", Val.vStr "a"), ("description", Val.vStr "b"),
            ("category", Val.vNum 0)] "title" = true
          ∧ truthyField [("title", Val.vStr "a"), ("description", Val.vStr "b"),
              ("category", Val.vNum 0)] "description" = true
          ∧ truthyField [("title", Val.vStr "a"), ("description", Val.vStr "b"),
              ("category", Val.vNum 0)] "category" = true))
    ∧ ((createGem store0
        [("title", Val.vStr "a"), ("description", Val.vStr "b"),
         ("category", Val.vNum 0)] 7 oid1).1.status = 400
      ↔ ¬(truthyField [("title", Val.vStr "a"), ("description", Val.vStr "b"),
            ("category", Val.vNum 0)] "title" = true
          ∧ truthyField [("title", Val.vStr "a"), ("description", Val.vStr "b"),
              ("category", Val.vNum 0)] "description" = true
          ∧ truthyField [("title", Val.vStr "a"), ("description", Val.vStr "b"),
              ("category", Val.vNum 0)] "category" = true))
    ∧ (∀ k, getField [("title", Val.vStr "a"), ("description", Val.vStr "b"),
          ("category", Val.vNum 0)] k = none
        → truthyField [("title", Val.vStr "a"), ("description", Val.vStr "b"),
            ("category", Val.vNum 0)] k = false)
    ∧ (∀ k, getField [("title", Val.vStr "a"), ("description", Val.vStr "b"),
            ("category", Val.vNum 0)] k = some (Val.vStr "")
          ∨ getField [("title", Val.vStr "a"), ("description", Val.vStr "b"),
              ("category", Val.vNum 0)] k = some (Val.vNum 0)
          ∨ getField [("title", Val.vStr "a"), ("description", Val.vStr "b"),
              ("category", Val.vNum 0)] k = some (Val.vBool false)
          ∨ getField [("title", Val.vStr "a"), ("description", Val.vStr "b"),
              ("category", Val.vNum 0)] k = some Val.vNull
        → truthyField [("title", Val.vStr "a"), ("description", Val.vStr "b"),
            ("category", Val.vNum 0)] k = false) :=
  create_truthiness store0
    [("title", Val.vStr "a"), ("description", Val.vStr "b"),
     ("category", Val.vNum 0)] 7 oid1

/-- Claim C5: every identifier string that is not in the store's identifier
format makes get, update and delete return 400 "Invalid Gem ID format"
without touching the collection, whatever its contents (the response does
not depend on the store, and the returned collection is unchanged). -/
theorem invalid_id_400 (gemId : String) (h : isValidObjectId gemId = false) :
    (∀ store, getGem store gemId = ⟨400, RespBody.msg "Invalid Gem ID format"⟩)
    ∧ (∀ store body, updateGem store gemId body
        = (⟨400, RespBody.msg "Invalid Gem ID format"⟩, store))
    ∧ (∀ store, deleteGem store gemId
        = (⟨400, RespBody.msg "Invalid Gem ID format"⟩, store)) := by
  refine ⟨fun store => ?_, fun store body => ?_, fun store => ?_⟩ <;>
    simp [getGem, updateGem, deleteGem, h]

/-- Witness for C5 at the malformed identifier string "zz". -/
theorem invalid_id_400_witness :
    (∀ store, getGem store "zz" = ⟨400, RespBody.msg "Invalid Gem ID format"⟩)
    ∧ (∀ store body, updateGem store "zz" body
        = (⟨400, RespBody.msg "Invalid Gem ID format"⟩, store))
    ∧ (∀ store, deleteGem store "zz"
        = (⟨400, RespBody.msg "Invalid Gem ID format"⟩, store)) :=
  invalid_id_400 "zz" (by decide)

/-- Claim C6: a well-formed identifier matching no stored document makes
get, update and delete return 404 with the corresponding message, and the
collection is left unchanged. -/
theorem wellformed_missing_404 (store : Store) (gemId : String)
    (hv : isValidObjectId gemId = true) (hn : findGem store gemId = none) :
    getGem store gemId = ⟨404, RespBody.msg "Hidden gem not found"⟩
    ∧ (∀ body, updateGem store gemId body
        = (⟨404, RespBody.msg "Hidden gem not found"⟩, store))
    ∧ deleteGem store gemId
        = (⟨404, RespBody.msg "Hidden gem not found or already deleted"⟩, store) := by
  refine ⟨?_, fun body => ?_, ?_⟩ <;>
    simp [getGem, updateGem, deleteGem, hv, hn]

/-- Witness for C6: `oid1` is well-formed but absent from `store0`. -/
theorem wellformed_missing_404_witness :
    getGem store0 oid1 = ⟨404, RespBody.msg "Hidden gem not found"⟩
    ∧ (∀ body, updateGem store0 oid1 body
        = (⟨404, RespBody.msg "Hidden gem not found"⟩, store0))
    ∧ deleteGem store0 oid1
        = (⟨404, RespBody.msg "Hidden gem not found or already deleted"⟩, store0) :=
  wellformed_missing_404 store0 oid1 (by decide) (by decide)

/-- Claim C2: for a well-formed identifier the update outcome is exactly
three-way: (a) no matching document gives 404 and an unchanged collection;
(b) a match whose merged result is identical gives 200 "no changes" and an
unchanged collection; (c) a match with a difference gives 200 "updated",
only the first matching document is replaced by the merge of the supplied
fields, and fields absent from the body keep their stored values. -/
theorem update_three_way (store : Store) (gemId : String) (body : Doc)
    (hv : isValidObjectId gemId = true) :
    (findGem store gemId = none →
      updateGem store gemId body
        = (⟨404, RespBody.msg "Hidden gem not found"⟩, store))
    ∧ (∀ d, findGem store gemId = some d →
        setMany d (eraseField body "_id") = d →
        updateGem store gemId body
          = (⟨200, RespBody.msg
                "No changes made to the hidden gem (data was identical)"⟩, store))
    ∧ (∀ d, findGem store gemId = some d →
        setMany d (eraseField body "_id") ≠ d →
        updateGem store gemId body
          = (⟨200, RespBody.msg "Hidden gem updated successfully"⟩,
              replaceFirst store gemId (setMany d (eraseField body "_id")))
        ∧ (∀ k, getField (eraseField body "_id") k = none →
            getField (setMany d (eraseField body "_id")) k = getField d k)) := by
  refine ⟨?_, ?_, ?_⟩
  · intro hn
    simp [updateGem, hv, hn]
  · intro d hf he
    simp [updateGem, hv, hf, he, replaceFirst_self store gemId d hf]
  · intro d hf hne
    refine ⟨by simp [updateGem, hv, hf, hne], ?_⟩
    intro k hk
    exact getField_setMany_not_mem d _ k (not_mem_of_getField_none _ _ hk)

/-- Witness for C2 at `store0` and a body changing the category. -/
theorem update_three_way_witness :
    (findGem store0 oid0 = none →
      updateGem store0 oid0 [("category", Val.vStr "Nature & Parks")]
        = (⟨404, RespBody.msg "Hidden gem not found"⟩, store0))
    ∧ (∀ d, findGem store0 oid0 = some d →
        setMany d (eraseField [("category", Val.vStr "Nature & Parks")] "_id") = d →
        updateGem store0 oid0 [("category", Val.vStr "Nature & Parks")]
          = (⟨200, RespBody.msg
                "No changes made to the hidden gem (data was identical)"⟩, store0))
    ∧ (∀ d, findGem store0 oid0 = some d →
        setMany d (eraseField [("category", Val.vStr "Nature & Parks")] "_id") ≠ d →
        updateGem store0 oid0 [("category", Val.vStr "Nature & Parks")]
          = (⟨200, RespBody.msg "Hidden gem updated successfully"⟩,
              replaceFirst store0 oid0
                (setMany d (eraseField [("category", Val.vStr "Nature & Parks")] "_id")))
        ∧ (∀ k, getField (eraseField [("category", Val.vStr "Nature & Parks")] "_id") k
              = none →
            getField (setMany d (eraseField [("category", Val.vStr "Nature & Parks")]
              "_id")) k = getField d k)) :=
  update_three_way store0 oid0 [("category", Val.vStr "Nature & Parks")] (by decide)

/-- Claim C9: updating an existing document with a body identical to its
current stored fields returns 200 with the "no changes" message, the
collection is unchanged, and a subsequent fetch of the same identifier
returns the document unchanged. -/
theorem update_identical_no_changes (store : Store) (gemId : String) (d : Doc)
    (hv : isValidObjectId gemId = true)
    (hf : findGem store gemId = some d)
    (hnd : (d.map Prod.fst).Nodup) :
    updateGem store gemId d
      = (⟨200, RespBody.msg
            "No changes made to the hidden gem (data was identical)"⟩, store)
    ∧ getGem store gemId = ⟨200, RespBody.gem d⟩ := by
  have he : setMany d (eraseField d "_id") = d := by
    apply setMany_eq_self
    intro k v hm
    exact getField_eq_of_mem_nodup d k v hnd (mem_eraseField d "_id" (k, v) hm)
  constructor
  · simp [updateGem, hv, hf, he, replaceFirst_self store gemId d hf]
  · simp [getGem, hv, hf]

/-- Witness for C9: updating `gem0` with its own fields. -/
theorem update_identical_no_changes_witness :
    updateGem store0 oid0 gem0
      = (⟨200, RespBody.msg
            "No changes made to the hidden gem (data was identical)"⟩, store0)
    ∧ getGem store0 oid0 = ⟨200, RespBody.gem gem0⟩ :=
  update_identical_no_changes store0 oid0 gem0 (by decide) (by decide) (by decide)

/-- Claim C3 (counterexample): the stored gem's `submissionDate` is the
server-assigned 5, yet a PUT whose body carries `submissionDate` 9 is
accepted with 200 "updated" and the stored value becomes 9 — so a later
operation does replace `submissionDate` with a client-supplied value. -/
theorem submissionDate_overwritten_cex :
    getField gem0 "submissionDate" = some (Val.vDate 5)
    ∧ (updateGem store0 oid0 [("submissionDate", Val.vDate 9)]).1
        = ⟨200, RespBody.msg "Hidden gem updated successfully"⟩
    ∧ ((updateGem store0 oid0 [("submissionDate", Val.vDate 9)]).2).map
        (fun d => getField d "submissionDate") = [some (Val.vDate 9)] := by
  decide

/-- Claim C3 (amended): `submissionDate` is stamped server-side at creation
with the current time regardless of the request body; but update does not
protect it — an update body carrying a `submissionDate` different from the
stored one overwrites the stored value. -/
theorem submissionDate_stamped_at_creation_only (store : Store) (body : Doc)
    (now : Nat) (newId : String)
    (ht : truthyField body "title" = true)
    (hd : truthyField body "description" = true)
    (hc : truthyField body "category" = true) :
    (∃ doc, (createGem store body now newId).2 = store ++ [doc]
        ∧ getField doc "submissionDate" = some (Val.vDate now))
    ∧ (∀ (s : Store) (gid : String) (d : Doc) (t : Nat),
        isValidObjectId gid = true → findGem s gid = some d →
        getField d "submissionDate" ≠ some (Val.vDate t) →
        ∃ d', (updateGem s gid [("submissionDate", Val.vDate t)]).2
            = replaceFirst s gid d'
          ∧ getField d' "submissionDate" = some (Val.vDate t)) := by
  constructor
  · have hsub : getField (setField body "submissionDate" (Val.vDate now))
        "submissionDate" = some (Val.vDate now) := getField_setField_self body _ _
    cases hid : getField (setField body "submissionDate" (Val.vDate now)) "_id" with
    | none =>
      refine ⟨setField body "submissionDate" (Val.vDate now) ++ [("_id", Val.vOid newId)],
        by simp [createGem, ht, hd, hc, hid], ?_⟩
      rw [getField_append, hsub]
    | some w =>
      exact ⟨setField body "submissionDate" (Val.vDate now),
        by simp [createGem, ht, hd, hc, hid], hsub⟩
  · intro s gid d t hv hf hne
    have hupd : eraseField [("submissionDate", Val.vDate t)] "_id"
        = [("submissionDate", Val.vDate t)] := by simp [eraseField]
    have hset : setMany d [("submissionDate", Val.vDate t)]
        = setField d "submissionDate" (Val.vDate t) := rfl
    have hd' : getField (setField d "submissionDate" (Val.vDate t)) "submissionDate"
        = some (Val.vDate t) := getField_setField_self d _ _
    have hne' : ¬ setField d "submissionDate" (Val.vDate t) = d :=
      fun hh => hne (hh ▸ hd')
    refine ⟨setField d "submissionDate" (Val.vDate t), ?_, hd'⟩
    simp [updateGem, hv, hf, hupd, hset, hne']

/-- Witness for C3's amended theorem at the concrete payload. -/
theorem submissionDate_stamped_at_creation_only_witness :
    (∃ doc, (createGem store0 payload0 100 oid1).2 = store0 ++ [doc]
        ∧ getField doc "submissionDate" = some (Val.vDate 100))
    ∧ (∀ (s : Store) (gid : String) (d : Doc) (t : Nat),
        isValidObjectId gid = true → findGem s gid = some d →
        getField d "submissionDate" ≠ some (Val.vDate t) →
        ∃ d', (updateGem s gid [("submissionDate", Val.vDate t)]).2
            = replaceFirst s gid d'
          ∧ getField d' "submissionDate" = some (Val.vDate t)) :=
  submissionDate_stamped_at_creation_only store0 payload0 100 oid1
    (by decide) (by decide) (by decide)

/-- A successful or failed create either leaves the collection unchanged or
appends exactly the new document at the end. -/
theorem createGem_store_shape (store : Store) (body : Doc) (now : Nat)
    (newId : String) :
    ∃ tail, (createGem store body now newId).2 = store ++ tail := by
  by_cases hb : (!(truthyField body "title") || !(truthyField body "description")
      || !(truthyField body "category")) = true
  · exact ⟨[], by simp [createGem, hb]⟩
  · cases hid : getField (setField body "submissionDate" (Val.vDate now)) "_id" with
    | none =>
      exact ⟨[setField body "submissionDate" (Val.vDate now)
          ++ [("_id", Val.vOid newId)]], by simp [createGem, hb, hid]⟩
    | some w =>
      exact ⟨[setField body "submissionDate" (Val.vDate now)],
        by simp [createGem, hb, hid]⟩

/-- Update never changes the list of stored identifiers: the `_id` field is
stripped from the body before the `$set` merge. -/
theorem updateGem_gemIds (store : Store) (gemId : String) (body : Doc) :
    gemIds (updateGem store gemId body).2 = gemIds store := by
  by_cases hv : isValidObjectId gemId = true
  · cases hf : findGem store gemId with
    | none => simp [updateGem, hv, hf]
    | some d =>
      have hid : getField (setMany d (eraseField body "_id")) "_id"
          = getField d "_id" :=
        getField_setMany_not_mem d _ "_id" (not_mem_map_eraseField body "_id")
      have hrep := gemIds_replaceFirst store gemId d
        (setMany d (eraseField body "_id")) hf hid
      by_cases he : setMany d (eraseField body "_id") = d
      · simp [updateGem, hv, hf, he, replaceFirst_self store gemId d hf]
      · simp [updateGem, hv, hf, he, hrep]
  · have hv' : isValidObjectId gemId = false := by simpa using hv
    simp [updateGem, hv']

/-- Claim C7: across any sequence of create and update operations the
identifiers of the already-stored documents are never reassigned — the list
of stored `_id`s only ever grows at the end (update strips any `_id` in the
body before merging, so each document keeps its creation identifier). -/
theorem ids_never_reassigned (store : Store) (ops : List Op) :
    ∃ tail, gemIds (applyOps store ops) = gemIds store ++ tail := by
  induction ops generalizing store with
  | nil => exact ⟨[], by simp [applyOps, gemIds]⟩
  | cons op rest ih =>
    have hstep : ∃ t1, gemIds (applyOp store op) = gemIds store ++ t1 := by
      cases op with
      | createOp b n i =>
        obtain ⟨t, htl⟩ := createGem_store_shape store b n i
        exact ⟨gemIds t, by simp [applyOp, htl, gemIds]⟩
      | updateOp g b =>
        exact ⟨[], by simp [applyOp, updateGem_gemIds]⟩
    obtain ⟨t1, ht1⟩ := hstep
    obtain ⟨t2, ht2⟩ := ih (applyOp store op)
    refine ⟨t1 ++ t2, ?_⟩
    have hsplit : applyOps store (op :: rest) = applyOps (applyOp store op) rest := rfl
    rw [hsplit, ht2, ht1, List.append_assoc]

/-- Claim C8: creating a valid payload (with no client `_id`) and then
fetching by the identifier returned by create yields 200 with exactly the
stored object, which agrees with the payload on every client-supplied
field (everything except the generated `_id` and `submissionDate`). -/
theorem create_then_get_round_trip (store : Store) (body : Doc) (now : Nat)
    (newId : String)
    (ht : truthyField body "title" = true)
    (hd : truthyField body "description" = true)
    (hc : truthyField body "category" = true)
    (hnoid : getField body "_id" = none)
    (hvid : isValidObjectId newId = true)
    (hfresh : findGem store newId = none) :
    ∃ doc,
      createGem store body now newId
        = (⟨201, RespBody.created "Hidden gem added successfully"
              (Val.vOid newId) doc⟩, store ++ [doc])
      ∧ getGem (createGem store body now newId).2 newId = ⟨200, RespBody.gem doc⟩
      ∧ (∀ k, k ≠ "_id" → k ≠ "submissionDate" →
          getField doc k = getField body k) := by
  have hid : getField (setField body "submissionDate" (Val.vDate now)) "_id"
      = none := by
    rw [getField_setField_ne body _ _ _ (by decide)]
    exact hnoid
  have hdocid : getField
      (setField body "submissionDate" (Val.vDate now) ++ [("_id", Val.vOid newId)])
      "_id" = some (Val.vOid newId) := by
    rw [getField_append, hid]
    simp [getField]
  have hmatch : idMatches newId
      (setField body "submissionDate" (Val.vDate now) ++ [("_id", Val.vOid newId)])
      = true := by
    simp [idMatches, hdocid]
  have hcreate : createGem store body now newId
      = (⟨201, RespBody.created "Hidden gem added successfully" (Val.vOid newId)
            (setField body "submissionDate" (Val.vDate now)
              ++ [("_id", Val.vOid newId)])⟩,
          store ++ [setField body "submissionDate" (Val.vDate now)
              ++ [("_id", Val.vOid newId)]]) := by
    simp [createGem, ht, hd, hc, hid, hdocid]
  refine ⟨setField body "submissionDate" (Val.vDate now) ++ [("_id", Val.vOid newId)],
    hcreate, ?_, ?_⟩
  · rw [hcreate]
    have hfind : findGem
        (store ++ [setField body "submissionDate" (Val.vDate now)
          ++ [("_id", Val.vOid newId)]]) newId
        = some (setField body "submissionDate" (Val.vDate now)
            ++ [("_id", Val.vOid newId)]) := by
      rw [findGem_append_of_none store _ newId hfresh]
      have hone := List.find?_cons_of_pos ([] : Store) hmatch
      simpa [findGem] using hone
    simp [getGem, hvid, hfind]
  · intro k hk1 hk2
    have h1 : getField (setField body "submissionDate" (Val.vDate now)) k
        = getField body k := getField_setField_ne body _ k _ hk2
    rw [getField_append, h1]
    cases hb : getField body k with
    | none =>
      have h2 : ¬("_id" = k) := fun hh => hk1 hh.symm
      simp [getField, h2]
    | some v => simp

/-- Witness for C8 at the concrete payload and a fresh identifier. -/
theorem create_then_get_round_trip_witness :
    ∃ doc,
      createGem store0 payload0 100 oid1
        = (⟨201, RespBody.created "Hidden gem added successfully"
              (Val.vOid oid1) doc⟩, store0 ++ [doc])
      ∧ getGem (createGem store0 payload0 100 oid1).2 oid1
          = ⟨200, RespBody.gem doc⟩
      ∧ (∀ k, k ≠ "_id" → k ≠ "submissionDate" →
          getField doc k = getField payload0 k) :=
  create_then_get_round_trip store0 payload0 100 oid1
    (by decide) (by decide) (by decide) (by decide) (by decide) (by decide)

end GemService
